import Mathlib

/- Shallow embedding of the skincare-consultation chatbot engine in
   src/backend/api/chatbot.py (class SkincareChatbot and its HTTP endpoints),
   together with the recommend_products collaborator from
   src/backend/services/product_service.py.

   Modelling conventions:
   * Python strings are Lean `String`s; `str.lower`, `str.strip`,
     `str.capitalize` and the substring operator `in` are re-implemented
     below over the character list.
   * Python `None`-able attributes become `Option`; Python truthiness of a
     string/list under `if x:` is made explicit (`pyTruthy`, `≠ []`).
   * The five regular expressions of extract_entities and the name/greeting
     patterns of _generate_response are implemented as hand-written matchers
     that follow Python `re` semantics (leftmost, non-overlapping scan with
     word boundaries) for exactly those fixed patterns.
   * `list(set(xs))` iterates a hash set in unspecified order; it is modelled
     by `List.dedup`, and properties about these fields are stated up to set
     membership.
   * Fallible operations (attribute access on `None`, `int()` on a
     non-numeric string, indexing an empty list) return `Option`/`none`.
   * Wall-clock message timestamps and the uuid generator are outside the
     embedding: sessions carry their identifier as data. -/

namespace ApsaraChatbot

/-- Python `str.lower` (the engine's texts are ASCII, where `Char.toLower`
agrees with Python). -/
def lowerS (s : String) : String := ⟨s.data.map Char.toLower⟩

/-- Helper for substring search: does the first list lead the second? -/
def leadsList : List Char → List Char → Bool
  | [], _ => true
  | _ :: _, [] => false
  | a :: as, b :: bs => a == b && leadsList as bs

/-- Helper for substring search over character lists. -/
def isInfixCh (n : List Char) : List Char → Bool
  | [] => leadsList n []
  | c :: cs => leadsList n (c :: cs) || isInfixCh n cs

/-- Python's substring operator `needle in hay` on str. -/
def infixOf (needle hay : String) : Bool := isInfixCh needle.data hay.data

/-- Python `str.strip()` with no argument: remove leading and trailing
whitespace. -/
def pyStrip (s : String) : String :=
  ⟨((s.data.dropWhile (·.isWhitespace)).reverse.dropWhile (·.isWhitespace)).reverse⟩

/-- Python `str.capitalize()`: first character upper-cased, the rest
lower-cased. -/
def pyCapitalize (s : String) : String :=
  match s.data with
  | [] => ""
  | c :: cs => ⟨c.toUpper :: cs.map Char.toLower⟩

/-- Python truthiness of an `Optional[str]` attribute: `None` and `""` are
falsy. -/
def pyTruthy : Option String → Bool
  | none => false
  | some v => v != ""

/-- Python `int()` restricted to the decimal-digit strings that the age
regexes capture (other inputs raise `ValueError`, modelled as `none`). -/
def pyInt? (s : String) : Option Nat :=
  let t := (pyStrip s).data
  if t.isEmpty then none
  else if t.all (·.isDigit) then
    some (t.foldl (fun n c => n * 10 + (c.toNat - 48)) 0)
  else none

/-- Word character class of `re` (`\w`): alphanumeric or underscore (the
ASCII reading; Python's str patterns extend it to Unicode letters). -/
def isWordChar (c : Char) : Bool := c.isAlphanum || c == '_'

/-- A `\b` boundary holds before a word character iff the previous character
(`none` at the start of the text) is not a word character. -/
def prevNonWord : Option Char → Bool
  | none => true
  | some c => !isWordChar c

/-- A trailing `\b` after a word character holds iff the next character is
absent or not a word character. -/
def headNonWord : List Char → Bool
  | [] => true
  | c :: _ => !isWordChar c

/-- First successful application of `f` over a list of alternatives (regex
alternation order). -/
def firstSome? {α β : Type} : List α → (α → Option β) → Option β
  | [], _ => none
  | a :: as, f => match f a with
      | some b => some b
      | none => firstSome? as f

/-- Consume an exact literal (already in the text's case). -/
def eatLit : List Char → List Char → Option (List Char)
  | [], cs => some cs
  | _ :: _, [] => none
  | l :: ls, c :: cs => if c == l then eatLit ls cs else none

/-- Consume a literal case-insensitively (the literal is given lower-case). -/
def eatLitCI : List Char → List Char → Option (List Char)
  | [], cs => some cs
  | _ :: _, [] => none
  | l :: ls, c :: cs => if c.toLower == l then eatLitCI ls cs else none

/-- Greedy-first candidates for `\d` repeated once or twice: the two-digit
reading before the one-digit reading, as a backtracking regex tries them. -/
def digits1or2 : List Char → List (String × List Char)
  | [] => []
  | [c1] => if c1.isDigit then [(⟨[c1]⟩, [])] else []
  | c1 :: c2 :: rest =>
      if c1.isDigit then
        if c2.isDigit then [(⟨[c1, c2]⟩, rest), (⟨[c1]⟩, c2 :: rest)]
        else [(⟨[c1]⟩, c2 :: rest)]
      else []

/-- Greedy `\s*`. -/
def skipWs (cs : List Char) : List Char := cs.dropWhile (·.isWhitespace)

/-- Matcher at one position for the first age pattern of extract_entities,
`(\d of length 1-2) years? old` between word boundaries; returns the captured
digits, the last consumed character and the rest of the text. -/
def matchYearsOld (prev : Option Char) (cs : List Char) :
    Option (String × Char × List Char) :=
  if prevNonWord prev then
    firstSome? (digits1or2 cs) fun gc =>
      match eatLit ['y', 'e', 'a', 'r'] (skipWs gc.2) with
      | none => none
      | some cs3 =>
        let cs4 := match cs3 with
          | 's' :: t => t
          | l => l
        match eatLit ['o', 'l', 'd'] (skipWs cs4) with
        | none => none
        | some cs5 => if headNonWord cs5 then some (gc.1, 'd', cs5) else none
  else none

/-- Matcher for the second age pattern, `(\d of length 1-2) y/?o` between word
boundaries. -/
def matchYO (prev : Option Char) (cs : List Char) :
    Option (String × Char × List Char) :=
  if prevNonWord prev then
    firstSome? (digits1or2 cs) fun gc =>
      match skipWs gc.2 with
      | 'y' :: rest =>
        let rest2 := match rest with
          | '/' :: t => t
          | l => l
        match rest2 with
        | 'o' :: rest3 => if headNonWord rest3 then some (gc.1, 'o', rest3) else none
        | _ => none
      | _ => none
  else none

/-- Matcher for the third age pattern, `under (\d\d)` between word
boundaries. -/
def matchUnder (prev : Option Char) (cs : List Char) :
    Option (String × Char × List Char) :=
  if prevNonWord prev then
    match eatLit ['u', 'n', 'd', 'e', 'r'] cs with
    | none => none
    | some cs2 =>
      match skipWs cs2 with
      | d1 :: d2 :: rest =>
          if d1.isDigit && d2.isDigit && headNonWord rest then
            some (⟨[d1, d2]⟩, d2, rest)
          else none
      | _ => none
  else none

/-- Matcher for the fourth age pattern, `(\d\d)-(\d\d)` between word
boundaries; two capture groups (Python findall yields a tuple). -/
def matchRange (prev : Option Char) (cs : List Char) :
    Option ((String × String) × Char × List Char) :=
  if prevNonWord prev then
    match cs with
    | d1 :: d2 :: '-' :: d3 :: d4 :: rest =>
        if d1.isDigit && d2.isDigit && d3.isDigit && d4.isDigit && headNonWord rest then
          some ((⟨[d1, d2]⟩, ⟨[d3, d4]⟩), d4, rest)
        else none
    | _ => none
  else none

/-- Matcher for the fifth age pattern, `(\d\d)s` between word boundaries. -/
def matchDecade (prev : Option Char) (cs : List Char) :
    Option (String × Char × List Char) :=
  if prevNonWord prev then
    match cs with
    | d1 :: d2 :: 's' :: rest =>
        if d1.isDigit && d2.isDigit && headNonWord rest then
          some (⟨[d1, d2]⟩, 's', rest)
        else none
    | _ => none
  else none

/-- Left-to-right, non-overlapping scan of a matcher over the text, the way
`re.findall` collects matches; the fuel bounds the recursion and is always
instantiated above the text length. -/
def scanAll {α : Type} (f : Option Char → List Char → Option (α × Char × List Char)) :
    Nat → Option Char → List Char → List α
  | 0, _, _ => []
  | _ + 1, _, [] => []
  | fuel + 1, prev, c :: cs =>
      match f prev (c :: cs) with
      | some (a, last, rest) => a :: scanAll f fuel (some last) rest
      | none => scanAll f fuel (some c) cs

/-- `re.findall` of one of the hand-written matchers over a string. -/
def findAll {α : Type} (f : Option Char → List Char → Option (α × Char × List Char))
    (s : String) : List α :=
  scanAll f (s.data.length + 1) none s.data

/-- Matcher at one position for the name pattern of the GREETING branch,
`(?:I'm|I am|my name is|call me)` then whitespace then a captured word,
case-insensitively. -/
def matchNameAt (cs : List Char) : Option String :=
  firstSome? [['i', '\'', 'm'],
              ['i', ' ', 'a', 'm'],
              ['m', 'y', ' ', 'n', 'a', 'm', 'e', ' ', 'i', 's'],
              ['c', 'a', 'l', 'l', ' ', 'm', 'e']] fun alt =>
    match eatLitCI alt cs with
    | none => none
    | some cs2 =>
      match cs2 with
      | c :: rest =>
          if c.isWhitespace then
            let g := (rest.dropWhile (·.isWhitespace)).takeWhile isWordChar
            if g.isEmpty then none else some ⟨g⟩
          else none
      | [] => none

/-- `re.search` for the name pattern: leftmost match's captured group. -/
def searchName : List Char → Option String
  | [] => none
  | c :: cs =>
      match matchNameAt (c :: cs) with
      | some g => some g
      | none => searchName cs

/-- The ConversationState enum of chatbot.py. RECOMMENDATION is declared in
the source but never assigned by the engine. -/
inductive ConversationState where
  | greeting
  | skin_type
  | concerns
  | age_range
  | routine
  | lifestyle
  | budget
  | allergies
  | analysis
  | recommendation
  | followup
deriving DecidableEq

/-- The `.value` string of each ConversationState member. -/
def stateValue : ConversationState → String
  | .greeting => "greeting"
  | .skin_type => "skin_type"
  | .concerns => "concerns"
  | .age_range => "age_range"
  | .routine => "routine"
  | .lifestyle => "lifestyle"
  | .budget => "budget"
  | .allergies => "allergies"
  | .analysis => "analysis"
  | .recommendation => "recommendation"
  | .followup => "followup"

/-- Position of each state in the fixed linear conversation order (GREETING
first, FOLLOWUP last). -/
def stateIdx : ConversationState → Nat
  | .greeting => 0
  | .skin_type => 1
  | .concerns => 2
  | .age_range => 3
  | .routine => 4
  | .lifestyle => 5
  | .budget => 6
  | .allergies => 7
  | .analysis => 8
  | .recommendation => 9
  | .followup => 10

/-- The SkinProfile model. `lifestyle` and `preferences` are free-form dicts
that the engine never reads or writes; they are carried as opaque
association lists. -/
structure SkinProfile where
  skin_type : Option String := none
  concerns : List String := []
  age_range : Option String := none
  current_routine : List String := []
  lifestyle : List (String × String) := []
  budget : Option String := none
  allergies : List String := []
  preferences : List (String × String) := []
deriving DecidableEq

/-- One entry of a session's message log (the wall-clock timestamp is outside
the embedding). -/
structure ChatMessage where
  role : String
  content : String
deriving DecidableEq

/-- A catalog product dict as built by recommend_products. -/
structure Product where
  id : String
  name : String
  brand : String
  category : String
  concerns : List String
  url : String
deriving DecidableEq

/-- One step dict of a morning/evening routine; optional keys of the Python
dicts become `Option` fields (`none` models an absent key). -/
structure RoutineStep where
  step : Nat
  product_type : String
  recommendation : String
  ingredients : Option (List String) := none
  avoid : Option (List String) := none
  frequency : Option String := none
  texture : Option String := none
  notes : Option String := none
deriving DecidableEq

/-- One weekly-treatment dict of _get_weekly_treatments. -/
structure WeeklyTreatment where
  treatment : String
  frequency : String
  benefits : String
  ingredients : Option (List String) := none
deriving DecidableEq

/-- The recommendation dict of generate_recommendations (keys
morning_routine, evening_routine, weekly_treatments). -/
structure Recommendations where
  morning_routine : List RoutineStep := []
  evening_routine : List RoutineStep := []
  weekly_treatments : List WeeklyTreatment := []
deriving DecidableEq

/-- A ChatSession record. Of the free-form `context` dict only the key
`"name"` is ever written or read, carried here as `context_name`.
`recommendations` is declared `List[Dict]` in the source but assigned the
recommendation dict at the ANALYSIS state, modelled as an `Option`. -/
structure ChatSession where
  session_id : String
  state : ConversationState := .greeting
  profile : SkinProfile := {}
  messages : List ChatMessage := []
  context_name : Option String := none
  recommendations : Option Recommendations := none
deriving DecidableEq

/-- The ChatResponse model returned by process_message. -/
structure ChatResponse where
  response : String
  session_id : String
  state : String
  suggestions : List String := []
  products : List Product := []
  requires_image : Bool := false
  profile_complete : Bool := false
  error : Option String := none
deriving DecidableEq

/-- A value list of the entity dict: the keyword categories and the
single-group age patterns yield strings, the two-group pattern yields
tuples (Python `re.findall` returns tuples for multi-group patterns). -/
inductive EVal where
  | strs (l : List String)
  | pairs (l : List (String × String))
deriving DecidableEq

/-- Python truthiness of an entity value list. -/
def EVal.truthy : EVal → Bool
  | .strs l => !l.isEmpty
  | .pairs l => !l.isEmpty

/-- The dict returned by extract_entities: keys appear only if at least one
match was appended (`dict(defaultdict(list))` keeps only touched keys). -/
abbrev EDict := List (String × EVal)

/-- The skin_types dictionary of _initialize_nlp_patterns. -/
def skin_types_table : List (String × List String) :=
  [("oily", ["oily", "greasy", "shiny", "sebum"]),
   ("dry", ["dry", "flaky", "dehydrated", "tight"]),
   ("combination", ["combination", "mixed", "combo", "t-zone"]),
   ("normal", ["normal", "balanced", "regular"]),
   ("sensitive", ["sensitive", "reactive", "irritated", "red"])]

/-- The concerns dictionary of _initialize_nlp_patterns. -/
def concerns_table : List (String × List String) :=
  [("acne", ["acne", "pimples", "breakouts", "zits", "blackheads", "whiteheads"]),
   ("aging", ["wrinkles", "fine lines", "aging", "anti-aging", "crow's feet"]),
   ("pigmentation", ["dark spots", "hyperpigmentation", "melasma", "sun spots", "age spots"]),
   ("pores", ["large pores", "pores", "enlarged pores", "visible pores"]),
   ("redness", ["redness", "rosacea", "inflammation", "irritation"]),
   ("dullness", ["dull", "dullness", "lackluster", "tired skin"]),
   ("dark_circles", ["dark circles", "under eye", "eye bags", "puffy eyes"]),
   ("texture", ["texture", "rough", "bumpy", "uneven"])]

/-- The products dictionary of _initialize_nlp_patterns. -/
def products_table : List (String × List String) :=
  [("cleanser", ["cleanser", "wash", "cleansing", "face wash"]),
   ("moisturizer", ["moisturizer", "cream", "lotion", "hydrator"]),
   ("serum", ["serum", "treatment", "essence", "ampoule"]),
   ("sunscreen", ["sunscreen", "spf", "sun protection", "sunblock"]),
   ("toner", ["toner", "tonic", "astringent"]),
   ("exfoliant", ["exfoliant", "scrub", "peel", "aha", "bha"]),
   ("mask", ["mask", "face mask", "sheet mask"]),
   ("eye_cream", ["eye cream", "eye serum", "eye treatment"])]

/-- The ingredients/actives dictionary of _initialize_nlp_patterns. It is
initialized by the source but never read by extract_entities or any other
method. -/
def ingredients_actives_table : List (String × List String) :=
  [("retinol", ["retinol", "retinoid", "retin-a", "tretinoin"]),
   ("vitamin_c", ["vitamin c", "ascorbic acid", "l-ascorbic"]),
   ("niacinamide", ["niacinamide", "vitamin b3"]),
   ("hyaluronic", ["hyaluronic acid", "ha", "sodium hyaluronate"]),
   ("salicylic", ["salicylic acid", "bha", "beta hydroxy"]),
   ("glycolic", ["glycolic acid", "aha", "alpha hydroxy"])]

/-- Canonical labels of one keyword dictionary whose synonym list has a
substring match in the lowered text, in table order — each label is appended
at most once per call, exactly as the `if any(...): append` loop does. -/
def hitsOf (tbl : List (String × List String)) (tl : String) : List String :=
  (tbl.filter fun lp => lp.2.any fun pat => infixOf pat tl).map Prod.fst

/-- A dict entry is created only when its match list is non-empty. -/
def maybeEntry (k : String) (v : EVal) : EDict :=
  if v.truthy then [(k, v)] else []

/-- SkincareChatbot.extract_entities: keyword categories by substring match
over the lowered text, then the five age regexes over the same lowered
text. Keys with no match are absent from the resulting dict. -/
def extract_entities (text : String) : EDict :=
  let tl := lowerS text
  maybeEntry "skin_type" (.strs (hitsOf skin_types_table tl)) ++
  maybeEntry "concerns" (.strs (hitsOf concerns_table tl)) ++
  maybeEntry "products" (.strs (hitsOf products_table tl)) ++
  maybeEntry "age" (.strs (findAll matchYearsOld tl ++ findAll matchYO tl)) ++
  maybeEntry "age_under" (.strs (findAll matchUnder tl)) ++
  maybeEntry "age_range" (.pairs (findAll matchRange tl)) ++
  maybeEntry "age_decade" (.strs (findAll matchDecade tl))

/-- `list(set(xs))` on a list of strings: deduplication; the hash-set
iteration order is unspecified in CPython, so properties over these fields
are stated up to membership. -/
def pySetList (xs : List String) : List String := xs.dedup

/-- The age bucketing of update_profile. -/
def pyBucket (n : Nat) : String :=
  if n < 20 then "under_20"
  else if n < 30 then "20-30"
  else if n < 40 then "30-40"
  else if n < 50 then "40-50"
  else "50+"

/-- Step (a) of update_profile: `if "skin_type" in entities and
entities["skin_type"]: profile.skin_type = entities["skin_type"][0]`.
A tuple value reaching this str-typed read violates the declared
`Dict[str, List[str]]` type and cannot arise from extract_entities
(only the key "age_range" holds tuples and its elements are never read);
it is modelled as failure. -/
def up_skin (p : SkinProfile) (e : EDict) : Option SkinProfile :=
  match e.lookup "skin_type" with
  | some (.strs (x :: _)) => some { p with skin_type := some x }
  | some (.strs []) => some p
  | some (.pairs []) => some p
  | some (.pairs (_ :: _)) => none
  | none => some p

/-- Step (b): extend concerns, then `list(set(...))` (applied even when the
extension is empty, as long as the key is present). -/
def up_concerns (p : SkinProfile) (e : EDict) : Option SkinProfile :=
  match e.lookup "concerns" with
  | some (.strs l) => some { p with concerns := pySetList (p.concerns ++ l) }
  | some (.pairs []) => some { p with concerns := pySetList p.concerns }
  | some (.pairs (_ :: _)) => none
  | none => some p

/-- Step (c): same for products into current_routine. -/
def up_products (p : SkinProfile) (e : EDict) : Option SkinProfile :=
  match e.lookup "products" with
  | some (.strs l) => some { p with current_routine := pySetList (p.current_routine ++ l) }
  | some (.pairs []) => some { p with current_routine := pySetList p.current_routine }
  | some (.pairs (_ :: _)) => none
  | none => some p

/-- Step (d): under `if "age" in entities or "age_range" in entities`, only a
present "age" key is read; `entities["age"][0]` on an empty list raises
(IndexError) and `int()` on a non-digit string or tuple raises, both
modelled as `none`. An "age_range" key alone changes nothing. -/
def up_age (p : SkinProfile) (e : EDict) : Option SkinProfile :=
  if (e.lookup "age").isSome || (e.lookup "age_range").isSome then
    match e.lookup "age" with
    | some (.strs (a :: _)) =>
        match pyInt? a with
        | some n => some { p with age_range := some (pyBucket n) }
        | none => none
    | some (.strs []) => none
    | some (.pairs _) => none
    | none => some p
  else some p

/-- SkincareChatbot.update_profile, as the sequential composition of its four
field updates. -/
def update_profile (p : SkinProfile) (e : EDict) : Option SkinProfile :=
  (up_skin p e).bind (fun p1 => (up_concerns p1 e).bind (fun p2 =>
    (up_products p2 e).bind (fun p3 => up_age p3 e)))

/-- SkincareChatbot._get_weekly_treatments. -/
def get_weekly_treatments (p : SkinProfile) : List WeeklyTreatment :=
  (if p.skin_type == some "oily" || p.concerns.contains "pores" then
    [{ treatment := "Clay mask", frequency := "1-2 times per week",
       benefits := "Deep cleansing and pore minimizing" }]
   else []) ++
  (if p.skin_type == some "dry" || p.concerns.contains "dehydration" then
    [{ treatment := "Hydrating mask", frequency := "2-3 times per week",
       benefits := "Intense hydration boost" }]
   else []) ++
  (if p.concerns.contains "texture" || p.concerns.contains "dullness" then
    [{ treatment := "Chemical exfoliant", frequency := "1-2 times per week",
       ingredients := some ["AHA (glycolic/lactic acid)"],
       benefits := "Smooth texture and brighten skin" }]
   else [])

/-- SkincareChatbot.generate_recommendations: the morning list always gets a
step-1 cleanser and the hard-coded step-3 moisturizer and step-4 sunscreen;
a step-2 treatment is appended only for an acne/aging/wrinkles/pigmentation
concern; the evening retinol step (numbered 2) only for the three oldest age
brackets. -/
def generate_recommendations (p : SkinProfile) : Recommendations :=
  let morning0 : List RoutineStep :=
    if p.skin_type == some "oily" then
      [{ step := 1, product_type := "Cleanser",
         recommendation := "Gel or foaming cleanser with salicylic acid",
         ingredients := some ["salicylic acid", "tea tree", "niacinamide"],
         avoid := some ["heavy oils", "comedogenic ingredients"] }]
    else if p.skin_type == some "dry" then
      [{ step := 1, product_type := "Cleanser",
         recommendation := "Cream or milk cleanser",
         ingredients := some ["ceramides", "hyaluronic acid", "glycerin"],
         avoid := some ["sulfates", "alcohol"] }]
    else
      [{ step := 1, product_type := "Cleanser",
         recommendation := "Gentle gel cleanser",
         ingredients := some ["gentle surfactants", "antioxidants"],
         avoid := some ["harsh sulfates"] }]
  let morning1 : List RoutineStep :=
    if p.concerns.contains "acne" then
      morning0 ++ [{ step := 2, product_type := "Treatment",
                     recommendation := "BHA toner or serum",
                     ingredients := some ["salicylic acid 2%", "niacinamide"],
                     frequency := some "daily" }]
    else if p.concerns.contains "aging" || p.concerns.contains "wrinkles" then
      morning0 ++ [{ step := 2, product_type := "Serum",
                     recommendation := "Vitamin C serum",
                     ingredients := some ["L-ascorbic acid 10-20%", "vitamin E", "ferulic acid"],
                     frequency := some "daily" }]
    else if p.concerns.contains "pigmentation" then
      morning0 ++ [{ step := 2, product_type := "Serum",
                     recommendation := "Brightening serum",
                     ingredients := some ["niacinamide 10%", "alpha arbutin", "kojic acid"],
                     frequency := some "daily" }]
    else morning0
  let morning2 : List RoutineStep :=
    if p.skin_type == some "oily" then
      morning1 ++ [{ step := 3, product_type := "Moisturizer",
                     recommendation := "Lightweight gel moisturizer",
                     ingredients := some ["hyaluronic acid", "niacinamide"],
                     texture := some "gel or gel-cream" }]
    else
      morning1 ++ [{ step := 3, product_type := "Moisturizer",
                     recommendation := "Hydrating cream",
                     ingredients := some ["ceramides", "peptides", "hyaluronic acid"],
                     texture := some "cream" }]
  let morning3 : List RoutineStep :=
    morning2 ++ [{ step := 4, product_type := "Sunscreen",
                   recommendation := "Broad spectrum SPF 30+",
                   ingredients := some ["zinc oxide or chemical filters"],
                   notes := some "Essential for all skin types" }]
  let evening : List RoutineStep :=
    if (match p.age_range with
        | some a => ["30-40", "40-50", "50+"].contains a
        | none => false) then
      [{ step := 2, product_type := "Retinol",
         recommendation := "Start with 0.3% retinol",
         frequency := some "2-3 times per week initially",
         notes := some "Build tolerance gradually" }]
    else []
  { morning_routine := morning3, evening_routine := evening,
    weekly_treatments := get_weekly_treatments p }

/-- SkincareChatbot._format_recommendations. The source calls
`profile.skin_type.capitalize()`, which raises AttributeError when skin_type
is None; that path is modelled as `none`. -/
def format_recommendations (recs : Recommendations) (p : SkinProfile) : Option String :=
  match p.skin_type with
  | none => none
  | some st =>
    some ("## 🎯 Your Personalized Skincare Analysis\n\n" ++
      "**Skin Type:** " ++ pyCapitalize st ++ "\n" ++
      "**Main Concerns:** " ++ String.intercalate ", " p.concerns ++ "\n\n" ++
      "### ☀️ Morning Routine:\n" ++
      String.join (recs.morning_routine.map fun stp =>
        "**Step " ++ toString stp.step ++ ". " ++ stp.product_type ++ "**\n" ++
        "   → " ++ stp.recommendation ++ "\n" ++
        (match stp.ingredients with
         | some ing => "   *Key ingredients:* " ++ String.intercalate ", " ing ++ "\n"
         | none => "") ++
        "\n") ++
      (if !recs.evening_routine.isEmpty then
        "### 🌙 Evening Routine:\n" ++
        String.join (recs.evening_routine.map fun stp =>
          "**" ++ stp.product_type ++ ":** " ++ stp.recommendation ++ "\n" ++
          (match stp.frequency with
           | some f => "   *Frequency:* " ++ f ++ "\n"
           | none => "") ++
          "\n")
       else "") ++
      (if !recs.weekly_treatments.isEmpty then
        "### 📅 Weekly Treatments:\n" ++
        String.join (recs.weekly_treatments.map fun t =>
          "• **" ++ t.treatment ++ "** - " ++ t.frequency ++ "\n" ++
          "  " ++ t.benefits ++ "\n")
       else "") ++
      "\n💡 **Pro Tips:**\n" ++
      "• Always patch test new products\n" ++
      "• Introduce actives gradually\n" ++
      "• Consistency is key for results\n" ++
      "• Don't forget your neck!\n")

/-- services.product_service.recommend_products: the module defines this name
twice and the second definition shadows the first, so the chatbot receives
the fixed default list (sliced per-call by `[:10]`, a no-op on two items)
regardless of the concerns passed in. -/
def recommend_products (concerns : List String) : List Product :=
  let _ := concerns
  [{ id := "cleanser-1", name := "Gentle Cleanser", brand := "Apsara",
     category := "Cleanser", concerns := ["General"],
     url := "https://example.com/products/cleanser-1" },
   { id := "moisturizer-1", name := "Daily Moisturizer", brand := "Apsara",
     category := "Moisturizer", concerns := ["Dehydration"],
     url := "https://example.com/products/moisturizer-1" }]

/-- `entities.get(k)` truthiness: key present with a non-empty match list. -/
def entTruthy (e : EDict) (k : String) : Bool :=
  match e.lookup k with
  | some v => v.truthy
  | none => false

/-- The skin_tips dict of the SKIN_TYPE acknowledgment branch. -/
def skin_tips : List (String × String) :=
  [("Oily", "Oily skin produces excess sebum, which can lead to shine and breakouts. The good news? It tends to age slower! 🌟"),
   ("Dry", "Dry skin needs extra hydration and gentle care. It can feel tight but responds beautifully to the right moisture! 💧"),
   ("Combination", "Combination skin is like having two skin types - oily T-zone and dry cheeks. It needs a balanced approach! ⚖️"),
   ("Normal", "Lucky you! Normal skin is well-balanced, but still needs proper care to maintain its health! ✨"),
   ("Sensitive", "Sensitive skin requires extra gentle care and avoiding harsh ingredients. We'll find products that love your skin back! 💕")]

/-- The concern_advice dict of the CONCERNS acknowledgment branch. -/
def concern_advice : List (String × String) :=
  [("acne", "Acne can be frustrating, but with the right ingredients like salicylic acid and niacinamide, we can get it under control! 💪"),
   ("aging", "Prevention is key for aging! We'll focus on antioxidants, retinoids, and SPF to keep your skin youthful. ⏰"),
   ("pigmentation", "Dark spots take patience, but ingredients like vitamin C, niacinamide, and gentle exfoliation work wonders! ✨"),
   ("pores", "While we can't shrink pores permanently, we can minimize their appearance with the right routine! 🎯"),
   ("redness", "Redness often indicates sensitivity or inflammation. We'll focus on gentle, soothing ingredients. 🌿"),
   ("dullness", "Dull skin just needs the right exfoliation and hydration to reveal your natural glow! 🌟")]

/-- The four regex patterns re-tested inside the AGE_RANGE response branch
(the y/o pattern is not among them), plus nothing else: re.search existence
over the lowered message. -/
def ageSearchHit (ml : String) : Bool :=
  !(findAll matchYearsOld ml).isEmpty ||
  !(findAll matchUnder ml).isEmpty ||
  !(findAll matchRange ml).isEmpty ||
  !(findAll matchDecade ml).isEmpty

/-- The per-state help texts of the generic fallback branch of
_handle_general_input; states without an entry get the dict's default. -/
def current_state_help : ConversationState → String
  | .greeting => "Let's start with your name so I can personalize our conversation!"
  | .skin_type => "Tell me about your skin type - is it oily, dry, combination, normal, or sensitive?"
  | .concerns => "What skin concerns would you like to address?"
  | .age_range => "Which age group do you belong to?"
  | .routine => "What's your current skincare routine like?"
  | .lifestyle => "Tell me about your lifestyle and daily habits!"
  | .budget => "What's your monthly skincare budget?"
  | .allergies => "Do you have any allergies or ingredients to avoid?"
  | _ => "Let's continue building your profile!"

/-- SkincareChatbot._handle_general_input: fixed canned replies keyed by
keyword groups, tried in source order; only the reset group mutates the
session (state back to GREETING, fresh profile, cleared context). -/
def handle_general_input (s : ChatSession) (m : String) : String × ChatSession :=
  let ml := lowerS m
  if ["help", "what", "how", "why", "explain"].any (fun w => infixOf w ml) then
    ("I'm here to help you build the perfect skincare routine! 🌟\n\nI'll guide you through a few questions to understand:\n• Your skin type and concerns\n• Your age and lifestyle\n• Your budget and preferences\n\nThen I'll create a personalized routine just for you! Ready to continue?", s)
  else if ["product", "recommend", "suggest", "buy"].any (fun w => infixOf w ml) then
    (if pyTruthy s.profile.skin_type && !s.profile.concerns.isEmpty then
      "I'd love to recommend products! Let me finish gathering your information so I can give you the most personalized recommendations. We're almost done! 🎯"
     else
      "I'll recommend the perfect products for you once I understand your skin better! Let's continue with a few more questions first. 💫", s)
  else if ["routine", "steps", "order"].any (fun w => infixOf w ml) then
    ("I'll create a complete morning and evening routine for you! Just let me gather a bit more information about your skin first. 📋", s)
  else if ["ingredient", "chemical", "acid", "retinol", "vitamin"].any (fun w => infixOf w ml) then
    ("Great question about ingredients! I'll explain everything when I create your routine. Different ingredients work better for different skin types and concerns. Let's continue! 🧪", s)
  else if ["skip", "next", "continue", "done"].any (fun w => infixOf w ml) then
    ("Sure! Let's move forward. I want to make sure I have enough information to give you the best recommendations possible. 🚀", s)
  else if ["start over", "restart", "reset", "begin again"].any (fun w => infixOf w ml) then
    ("No problem! Let's start fresh. 🌟\n\nHi! I'm your personal skincare consultant. What's your name?",
     { s with state := .greeting, profile := {}, context_name := none })
  else
    ("I understand! Let me help guide you. 😊\n\n" ++ current_state_help s.state ++
     "\n\nFeel free to ask me anything or just answer the question above!", s)

/-- The per-state branch body of SkincareChatbot._generate_response (before
the short-response fallback at its end): returns the response text, the
suggestion chips, the product list, and the possibly-mutated session.
The RECOMMENDATION and FOLLOWUP states fall to the final else (picking a
question from question_flow is dead there because question_flow has no entry
for either state). The `.capitalize()` calls on a None skin_type are
modelled as `none`. -/
def gr_core (s : ChatSession) (m : String) (e : EDict) :
    Option (String × List String × List Product × ChatSession) :=
  match s.state with
  | .greeting =>
    match searchName m.data with
    | some name0 =>
      let nm := pyCapitalize name0
      some ("Nice to meet you, " ++ nm ++ "! 😊 I'm your personal skincare consultant. I'll help you build the perfect routine tailored just for you.\n\nLet's start with the basics - how would you describe your skin type?",
            ["My name is...", "I need skincare help", "Oily skin", "Dry skin", "Sensitive skin"],
            [], { s with context_name := some nm })
    | none =>
      if (["hi", "hello", "hey", "good morning", "good afternoon", "good evening"].any
            (fun w => infixOf w (lowerS m))) ||
         (searchName m.data).isSome ||
         (["help", "advice", "consultation", "skincare"].any (fun w => infixOf w (lowerS m))) then
        some ("Hello! 👋 Welcome to your personalized skincare consultation! I'm here to help you achieve your best skin ever.\n\nTo get started, could you tell me your name? And then we'll dive into understanding your unique skin needs!",
              ["My name is...", "I need skincare help", "Oily skin", "Dry skin", "Sensitive skin"],
              [], s)
      else
        some ("Hi there! I'm your AI skincare consultant. 🌟\n\nI'll help you:\n• Identify your skin type\n• Address your specific concerns\n• Build a personalized routine\n• Recommend the best products\n\nWhat's your name so we can get started?",
              ["My name is...", "I need skincare help", "Oily skin", "Dry skin", "Sensitive skin"],
              [], s)
  | .skin_type =>
    if entTruthy e "skin_type" then
      match s.profile.skin_type with
      | some st0 =>
        let stC := pyCapitalize st0
        some ("Perfect! " ++ stC ++ " skin it is. " ++ ((skin_tips.lookup stC).getD "") ++
              "\n\nNow, let's talk about your main skin concerns. What bothers you most about your skin? You can mention multiple concerns - I'm here to address them all! 🎯",
              ["Acne & breakouts", "Fine lines", "Dark spots", "Large pores", "Redness", "Dullness"],
              [], s)
      | none => none
    else
      some ("I'd love to help you identify your skin type! Here's a quick guide:\n\n🔸 **Oily**: Shiny, especially T-zone, prone to breakouts\n🔸 **Dry**: Feels tight, flaky, sometimes rough texture\n🔸 **Combination**: Oily T-zone (forehead, nose, chin) + dry cheeks\n🔸 **Normal**: Balanced, not too oily or dry\n🔸 **Sensitive**: Easily irritated, reacts to products\n\nWhich one sounds most like your skin?",
            ["Oily", "Dry", "Combination", "Normal", "Sensitive", "Not sure"],
            [], s)
  | .concerns =>
    if entTruthy e "concerns" then
      let cs := s.profile.concerns
      let concern_str := String.intercalate ", " cs
      let advice_parts := cs.filterMap fun c => concern_advice.lookup (lowerS c)
      some ("Got it! You're dealing with " ++ concern_str ++ ". Here's the good news:\n\n" ++
            String.intercalate "\n" ((advice_parts.take 2).map (fun a => "• " ++ a)) ++
            "\n\nNow, to create the perfect routine for you, which age group do you belong to? This helps me recommend age-appropriate products and ingredients. 🎂",
            ["Under 20", "20-30", "30-40", "40-50", "50+"],
            [], s)
    else
      some ("What skin concerns would you like to address? Don't worry - everyone has them! The more specific you are, the better I can help you. You can mention multiple concerns:\n\n🔸 **Acne & breakouts** - pimples, blackheads, whiteheads\n🔸 **Aging signs** - fine lines, wrinkles, loss of firmness\n🔸 **Dark spots** - hyperpigmentation, sun spots, acne marks\n🔸 **Large pores** - visible or enlarged pores\n🔸 **Redness** - irritation, rosacea, sensitivity\n🔸 **Dullness** - lack of glow, uneven texture\n\nWhat's bothering you most about your skin?",
            ["Acne", "Fine lines", "Dark spots", "Large pores", "Redness", "Dullness", "Multiple concerns"],
            [], s)
  | .analysis =>
    let recs := generate_recommendations s.profile
    match format_recommendations recs s.profile with
    | some txt =>
      some (txt,
            ["Show morning routine", "Show evening routine", "Explain ingredients", "Start over"],
            (recommend_products s.profile.concerns).take 5,
            { s with recommendations := some recs })
    | none => none
  | .age_range =>
    if ageSearchHit (lowerS m) ||
       (["teen", "twenty", "thirty", "forty", "fifty"].any (fun w => infixOf w (lowerS m))) then
      some ("Perfect! Age is important for skincare because our skin's needs change over time. 📅\n\nNow, tell me about your current skincare routine. What products do you use daily? Even if it's just water and soap, I want to know! This helps me understand what's working and what we might need to change. 🧴",
            ["Just cleanser", "Cleanser + moisturizer", "Full routine", "Nothing really", "Minimal routine"],
            [], s)
    else
      some ("I'd love to know your age range to give you the best recommendations! Different ages have different skincare priorities:\n\n🔸 **Under 20**: Focus on gentle cleansing and sun protection\n🔸 **20-30**: Prevention and addressing specific concerns\n🔸 **30-40**: Anti-aging prevention and maintenance\n🔸 **40-50**: Active anti-aging and skin barrier support\n🔸 **50+**: Intensive care and addressing mature skin needs\n\nWhich range fits you best?",
            ["Under 20", "20-30", "30-40", "40-50", "50+"],
            [], s)
  | .routine =>
    some ("Great! Understanding your current routine helps me see what's working. 👍\n\nNow let's talk lifestyle - this affects your skin more than you might think! How many hours of sleep do you usually get? Do you wear makeup daily? How much water do you drink? Any outdoor activities? 🌞",
          ["Continue", "Tell me more", "I'm ready for my routine"], [], s)
  | .lifestyle =>
    some ("Lifestyle factors are so important for skin health! 🌟\n\nLet's talk budget - I want to make sure my recommendations fit your lifestyle. What's your monthly skincare budget? Don't worry, great skin doesn't have to be expensive! 💰",
          ["Continue", "Tell me more", "I'm ready for my routine"], [], s)
  | .budget =>
    some ("Perfect! I'll keep that budget in mind for all my recommendations. 💝\n\nLast question: Do you have any allergies or ingredients you want to avoid? This could be fragrances, essential oils, specific actives like retinol, or anything that has irritated your skin before. Better safe than sorry! 🛡️",
          ["Continue", "Tell me more", "I'm ready for my routine"], [], s)
  | .allergies =>
    some ("Excellent! I have all the information I need to create your perfect routine. Let me analyze everything and create a personalized plan just for you! ✨",
          ["Continue", "Tell me more", "I'm ready for my routine"], [], s)
  | .recommendation =>
    some ("Let me analyze your profile and create your personalized routine...", [], [], s)
  | .followup =>
    some ("Let me analyze your profile and create your personalized routine...", [], [], s)

/-- SkincareChatbot._generate_response: the per-state branch followed by the
fallback gate `if not response or len(response) < 10`, which hands the
message to _handle_general_input (keeping the branch's suggestions and
products). -/
def generate_response (s : ChatSession) (m : String) (e : EDict) :
    Option (String × List String × List Product × ChatSession) :=
  match gr_core s m e with
  | none => none
  | some (resp, sug, prods, s1) =>
    if resp == "" || resp.length < 10 then
      let rs := handle_general_input s1 m
      some (rs.1, sug, prods, rs.2)
    else some (resp, sug, prods, s1)

/-- SkincareChatbot._update_state: the per-state completion predicates over
the (already updated) profile and the raw message. The chained conditionals
have no branch for ANALYSIS, RECOMMENDATION or FOLLOWUP, so those states are
left unchanged even though the state_transitions dict of the source maps
ANALYSIS to FOLLOWUP. -/
def update_state (p : SkinProfile) (st : ConversationState) (m : String) : ConversationState :=
  match st with
  | .greeting =>
    if (["hi", "hello", "name", "i'm", "i am", "call me"].any (fun w => infixOf w (lowerS m))) ||
       (pyStrip m).length > 0 then .skin_type else .greeting
  | .skin_type =>
    if pyTruthy p.skin_type ||
       (["oily", "dry", "combination", "normal", "sensitive"].any (fun w => infixOf w (lowerS m))) then
      .concerns else .skin_type
  | .concerns =>
    if !p.concerns.isEmpty ||
       (["none", "nothing", "no concerns", "good", "fine"].any (fun w => infixOf w (lowerS m))) then
      .age_range else .concerns
  | .age_range =>
    if pyTruthy p.age_range ||
       (["teen", "twenty", "thirty", "forty", "fifty", "under", "over", "old", "age"].any
         (fun w => infixOf w (lowerS m))) ||
       (m.data.any (·.isDigit)) then .routine else .age_range
  | .routine => if (pyStrip m).length > 2 then .lifestyle else .routine
  | .lifestyle => if (pyStrip m).length > 2 then .budget else .lifestyle
  | .budget => if (pyStrip m).length > 2 then .allergies else .budget
  | .allergies => if (pyStrip m).length > 0 then .analysis else .allergies
  | .analysis => .analysis
  | .recommendation => .recommendation
  | .followup => .followup

/-- SkincareChatbot._is_profile_complete: `bool(profile.skin_type and
profile.concerns)`. -/
def is_profile_complete (p : SkinProfile) : Bool :=
  pyTruthy p.skin_type && !p.concerns.isEmpty

/-- SkincareChatbot.process_message on one session record: log the user
message, extract entities, accumulate the profile, generate the response,
log it, compute profile_complete, advance the state, and build the
ChatResponse. The store write-back `sessions[session.session_id] = session`
re-stores the same record and is handled at the endpoint layer. -/
def process_message (s : ChatSession) (m : String) : Option (ChatResponse × ChatSession) :=
  let s1 : ChatSession := { s with messages := s.messages ++ [{ role := "user", content := m }] }
  let e := extract_entities m
  match update_profile s1.profile e with
  | none => none
  | some p1 =>
    let s2 : ChatSession := { s1 with profile := p1 }
    match generate_response s2 m e with
    | none => none
    | some (resp, sug, prods, s3) =>
      let s4 : ChatSession := { s3 with messages := s3.messages ++ [{ role := "assistant", content := resp }] }
      let pc := is_profile_complete s4.profile
      let s5 : ChatSession := { s4 with state := update_state s4.profile s4.state m }
      some ({ response := resp,
              session_id := s5.session_id,
              state := stateValue s5.state,
              suggestions := sug,
              products := prods,
              requires_image := (s5.state == .analysis) && infixOf "photo" (lowerS m),
              profile_complete := pc,
              error := none }, s5)

/-- The process-wide session store (`self.sessions`). -/
abbrev SessionStore := List (String × ChatSession)

/-- The JSON body of the session-inspection endpoint. -/
structure SessionView where
  session_id : String
  state : String
  profile : SkinProfile
  messages : List ChatMessage
  recommendations : Option Recommendations
deriving DecidableEq

/-- Python `xs[-10:]`: the last (up to) ten entries. -/
def takeLast {α : Type} (n : Nat) (l : List α) : List α := l.drop (l.length - n)

/-- The GET /chat/session endpoint: 404 when the identifier is unknown,
otherwise a read-only view; the store is returned to express that the
handler never mutates it. -/
def get_session (store : SessionStore) (sid : String) :
    Except Nat SessionView × SessionStore :=
  match store.lookup sid with
  | none => (.error 404, store)
  | some s =>
    (.ok { session_id := sid, state := stateValue s.state, profile := s.profile,
           messages := takeLast 10 s.messages, recommendations := s.recommendations },
     store)

/-- The JSON body of the export endpoint. -/
structure ExportView where
  profile : SkinProfile
  recommendations : Option Recommendations
  products : List Product
  notes : String
deriving DecidableEq

/-- The GET /chat/export endpoint: 404 when the identifier is unknown,
otherwise profile, stored recommendation, an empty product list and a fixed
note; never mutates the store. -/
def export_routine (store : SessionStore) (sid : String) :
    Except Nat ExportView × SessionStore :=
  match store.lookup sid with
  | none => (.error 404, store)
  | some s =>
    (.ok { profile := s.profile, recommendations := s.recommendations, products := [],
           notes := "Remember to patch test and introduce products gradually!" },
     store)

/-- A message containing one of the four reset phrases recognized by
_handle_general_input. -/
def is_reset_message (m : String) : Bool :=
  ["start over", "restart", "reset", "begin again"].any (fun w => infixOf w (lowerS m))

/-- A session with the ChatSession field defaults of the source (the uuid is
passed in). -/
def fresh_session (sid : String) : ChatSession := { session_id := sid }

/-- Fold a list of messages through process_message, keeping the evolving
session; `none` when some call raises. -/
def run_messages (s : ChatSession) : List String → Option ChatSession
  | [] => some s
  | m :: ms =>
    match process_message s m with
    | some rs => run_messages rs.2 ms
    | none => none

/-- The sequence of session states observed while processing a list of
messages (cut short if a call raises). -/
def state_trace (s : ChatSession) : List String → List ConversationState
  | [] => [s.state]
  | m :: ms =>
    s.state ::
      (match process_message s m with
       | some rs => state_trace rs.2 ms
       | none => [])

/-- The value list of a dict key when it holds strings, else the empty
list. -/
def eStrs (e : EDict) (k : String) : List String :=
  match e.lookup k with
  | some (.strs l) => l
  | _ => []

/-- Invariant carried by chat-only sessions: from the CONCERNS state onwards
the profile's skin type is a non-empty string. -/
def SkinInv (s : ChatSession) : Prop :=
  2 ≤ stateIdx s.state → ∃ v, s.profile.skin_type = some v ∧ v ≠ ""

/-- Concrete session stuck at ANALYSIS, for evaluating the missing
ANALYSIS transition. -/
def c1_session : ChatSession :=
  { session_id := "s-analysis", state := .analysis,
    profile := { skin_type := some "oily", concerns := ["acne"] } }

/-- Concrete session at ALLERGIES with a non-empty profile, for evaluating a
reset phrase. -/
def c3_session : ChatSession :=
  { session_id := "s-allergies", state := .allergies,
    profile := { skin_type := some "dry", concerns := ["acne"] } }

/-- Default value used to name the result of a concrete process_message
call. -/
def pm_default : ChatResponse × ChatSession :=
  ({ response := "", session_id := "", state := "" }, { session_id := "" })

/-- Concrete session for the C5 witness, parked in FOLLOWUP to exercise
state-independence of profile_complete. -/
def c5w_session : ChatSession :=
  { session_id := "s-c5", state := .followup,
    profile := { skin_type := some "oily", concerns := ["acne"] } }

/-- The concrete result of the C5 witness call. -/
def c5w_res : ChatResponse × ChatSession := (process_message c5w_session "ok").getD pm_default

/-- The concrete result of the C10 witness call. -/
def c10_res : ChatResponse × ChatSession := (process_message (fresh_session "w10") "hi").getD pm_default

/-- Concrete profile for the C7 witness. -/
def c7_profile : SkinProfile := { concerns := ["acne"] }

/-- Concrete entity mapping for the C7 witness. -/
def c7_dict : EDict := [("skin_type", .strs ["oily"]), ("concerns", .strs ["acne", "pores"])]

/-- First application of the C7 witness mapping. -/
def c7_p1 : SkinProfile := (update_profile c7_profile c7_dict).getD {}

/-- Second application of the C7 witness mapping. -/
def c7_p2 : SkinProfile := (update_profile c7_p1 c7_dict).getD {}

/-- Message sequence of the C9 witness: it drives a fresh session to
ANALYSIS. -/
def c9_msgs : List String := ["hi", "oily", "acne", "25", "cleanser", "makeup daily", "mid", "none"]

/-- The concrete session of the C9 witness after the run. -/
def c9_res : ChatSession := (run_messages (fresh_session "w9") c9_msgs).getD (fresh_session "w9")

set_option maxRecDepth 200000

set_option maxHeartbeats 1000000

/-- The completion predicates only keep the state or move it to its
designated successor, so _update_state never decreases the position in the
linear order. -/
theorem update_state_mono (p : SkinProfile) (st : ConversationState) (m : String) :
    stateIdx st ≤ stateIdx (update_state p st m) := by
  cases st <;> simp only [update_state] <;> first
    | (split <;> simp [stateIdx])
    | simp [stateIdx]

/-- Membership in a conditional dict entry forces the entry's shape and a
non-empty match list. -/
theorem mem_maybeEntry {kv : String × EVal} {k : String} {v : EVal}
    (h : kv ∈ maybeEntry k v) : kv = (k, v) ∧ v.truthy = true := by
  unfold maybeEntry at h
  split at h <;> simp_all

/-- A filtered table keeps at most one occurrence of each canonical label. -/
theorem hitsOf_nodup {tbl : List (String × List String)}
    (h : (tbl.map Prod.fst).Nodup) (tl : String) : (hitsOf tbl tl).Nodup := by
  unfold hitsOf
  exact List.Nodup.sublist ((List.filter_sublist _).map Prod.fst) h

/-- Every produced label comes from the table. -/
theorem hitsOf_subset {tbl : List (String × List String)} {tl : String} {x : String}
    (h : x ∈ hitsOf tbl tl) : x ∈ tbl.map Prod.fst := by
  unfold hitsOf at h
  exact (((List.filter_sublist _).map Prod.fst).subset) h

/-- Lookup skips a conditional entry with a different key. -/
theorem lookup_maybeEntry_ne (k k' : String) {v : EVal} {rest : EDict}
    (h : (k' == k) = false) :
    List.lookup k' (maybeEntry k v ++ rest) = List.lookup k' rest := by
  unfold maybeEntry
  split <;> simp [List.lookup, h]

/-- Lookup misses a lone conditional entry with a different key. -/
theorem lookup_maybeEntry_ne_nil (k k' : String) {v : EVal}
    (h : (k' == k) = false) :
    List.lookup k' (maybeEntry k v) = none := by
  unfold maybeEntry
  split <;> simp [List.lookup, h]

/-- The skin_type entry of the extracted dict: absent when the keyword scan
found nothing, otherwise the (string-valued) hit list. -/
theorem extract_skin_lookup (text : String) :
    (extract_entities text).lookup "skin_type" =
      (if (hitsOf skin_types_table (lowerS text)).isEmpty then none
       else some (.strs (hitsOf skin_types_table (lowerS text)))) := by
  simp only [extract_entities]
  cases h : (hitsOf skin_types_table (lowerS text)).isEmpty with
  | false =>
    have h1 : maybeEntry "skin_type" (.strs (hitsOf skin_types_table (lowerS text))) =
        [("skin_type", .strs (hitsOf skin_types_table (lowerS text)))] := by
      unfold maybeEntry
      simp [EVal.truthy, h]
    rw [h1]
    simp [List.lookup]
  | true =>
    have h1 : maybeEntry "skin_type" (.strs (hitsOf skin_types_table (lowerS text))) =
        [] := by
      unfold maybeEntry
      simp [EVal.truthy, h]
    rw [h1, List.nil_append]
    simp only [List.append_assoc]
    rw [lookup_maybeEntry_ne "concerns" "skin_type" (by decide),
      lookup_maybeEntry_ne "products" "skin_type" (by decide),
      lookup_maybeEntry_ne "age" "skin_type" (by decide),
      lookup_maybeEntry_ne "age_under" "skin_type" (by decide),
      lookup_maybeEntry_ne "age_range" "skin_type" (by decide),
      lookup_maybeEntry_ne_nil "age_decade" "skin_type" (by decide)]
    simp

/-- A table entry with a matching synonym guarantees a non-empty hit list. -/
theorem hitsOf_ne_nil_of_entry {tbl : List (String × List String)} {tl : String}
    {lbl : String} {pats : List String} (hmem : (lbl, pats) ∈ tbl) {pat : String}
    (hpat : pat ∈ pats) (hin : infixOf pat tl = true) : hitsOf tbl tl ≠ [] := by
  apply List.ne_nil_of_mem (a := lbl)
  unfold hitsOf
  refine List.mem_map.mpr ⟨(lbl, pats), List.mem_filter.mpr ⟨hmem, ?_⟩, rfl⟩
  simp only [List.any_eq_true]
  exact ⟨pat, hpat, hin⟩

/-- Each of the five skin-type keywords checked by _update_state is a synonym
of its own canonical label, so a keyword hit makes the extractor's skin-type
list non-empty. -/
theorem skin_hits_of_keyword {tl : String}
    (h : (["oily", "dry", "combination", "normal", "sensitive"].any
           (fun w => infixOf w tl)) = true) :
    hitsOf skin_types_table tl ≠ [] := by
  simp only [List.any_eq_true] at h
  obtain ⟨w, hw, hin⟩ := h
  simp only [List.mem_cons, List.not_mem_nil, or_false] at hw
  rcases hw with rfl | rfl | rfl | rfl | rfl
  · exact hitsOf_ne_nil_of_entry (by decide : ("oily", ["oily", "greasy", "shiny", "sebum"]) ∈ skin_types_table) (by decide) hin
  · exact hitsOf_ne_nil_of_entry (by decide : ("dry", ["dry", "flaky", "dehydrated", "tight"]) ∈ skin_types_table) (by decide) hin
  · exact hitsOf_ne_nil_of_entry (by decide : ("combination", ["combination", "mixed", "combo", "t-zone"]) ∈ skin_types_table) (by decide) hin
  · exact hitsOf_ne_nil_of_entry (by decide : ("normal", ["normal", "balanced", "regular"]) ∈ skin_types_table) (by decide) hin
  · exact hitsOf_ne_nil_of_entry (by decide : ("sensitive", ["sensitive", "reactive", "irritated", "red"]) ∈ skin_types_table) (by decide) hin

/-- up_skin only ever touches the skin_type field. -/
theorem up_skin_other {p : SkinProfile} {e : EDict} {q : SkinProfile}
    (h : up_skin p e = some q) :
    q.concerns = p.concerns ∧ q.current_routine = p.current_routine ∧
    q.age_range = p.age_range ∧ q.budget = p.budget ∧ q.allergies = p.allergies := by
  unfold up_skin at h
  split at h <;> simp_all <;> subst h <;> simp

/-- up_skin either keeps skin_type or overwrites it with the head of a
present, non-empty string list. -/
theorem up_skin_val {p : SkinProfile} {e : EDict} {q : SkinProfile}
    (h : up_skin p e = some q) :
    (q.skin_type = p.skin_type ∧ ∀ x l, e.lookup "skin_type" ≠ some (.strs (x :: l))) ∨
    (∃ x l, e.lookup "skin_type" = some (.strs (x :: l)) ∧ q.skin_type = some x) := by
  unfold up_skin at h
  rcases hl : e.lookup "skin_type" with _ | v
  · rw [hl] at h
    simp only [Option.some.injEq] at h
    exact .inl ⟨by rw [← h], by simp⟩
  · cases v with
    | strs l =>
      cases l with
      | nil =>
        rw [hl] at h
        simp only [Option.some.injEq] at h
        exact .inl ⟨by rw [← h], by simp⟩
      | cons x xs =>
        rw [hl] at h
        simp only [Option.some.injEq] at h
        exact .inr ⟨x, xs, rfl, by rw [← h]⟩
    | pairs l =>
      cases l with
      | nil =>
        rw [hl] at h
        simp only [Option.some.injEq] at h
        exact .inl ⟨by rw [← h], by simp⟩
      | cons y ys =>
        rw [hl] at h
        exact absurd h (by simp)

/-- up_concerns only ever touches the concerns field. -/
theorem up_concerns_other {p : SkinProfile} {e : EDict} {q : SkinProfile}
    (h : up_concerns p e = some q) :
    q.skin_type = p.skin_type ∧ q.current_routine = p.current_routine ∧
    q.age_range = p.age_range ∧ q.budget = p.budget ∧ q.allergies = p.allergies := by
  unfold up_concerns at h
  split at h <;> simp_all <;> subst h <;> simp

/-- The concerns field after up_concerns is the set union of the old value
and the entry's string list. -/
theorem up_concerns_mem {p : SkinProfile} {e : EDict} {q : SkinProfile}
    (h : up_concerns p e = some q) (x : String) :
    x ∈ q.concerns ↔ (x ∈ p.concerns ∨ x ∈ eStrs e "concerns") := by
  unfold up_concerns at h
  unfold eStrs
  rcases hl : e.lookup "concerns" with _ | v
  · rw [hl] at h
    simp only [Option.some.injEq] at h
    subst h
    simp
  · cases v with
    | strs l =>
      rw [hl] at h
      simp only [Option.some.injEq] at h
      subst h
      simp [pySetList, List.mem_dedup]
    | pairs l =>
      cases l with
      | nil =>
        rw [hl] at h
        simp only [Option.some.injEq] at h
        subst h
        simp [pySetList, List.mem_dedup]
      | cons y ys =>
        rw [hl] at h
        exact absurd h (by simp)

/-- up_products only ever touches the current_routine field. -/
theorem up_products_other {p : SkinProfile} {e : EDict} {q : SkinProfile}
    (h : up_products p e = some q) :
    q.skin_type = p.skin_type ∧ q.concerns = p.concerns ∧
    q.age_range = p.age_range ∧ q.budget = p.budget ∧ q.allergies = p.allergies := by
  unfold up_products at h
  split at h <;> simp_all <;> subst h <;> simp

/-- The current_routine field after up_products is the set union of the old
value and the entry's string list. -/
theorem up_products_mem {p : SkinProfile} {e : EDict} {q : SkinProfile}
    (h : up_products p e = some q) (x : String) :
    x ∈ q.current_routine ↔ (x ∈ p.current_routine ∨ x ∈ eStrs e "products") := by
  unfold up_products at h
  unfold eStrs
  rcases hl : e.lookup "products" with _ | v
  · rw [hl] at h
    simp only [Option.some.injEq] at h
    subst h
    simp
  · cases v with
    | strs l =>
      rw [hl] at h
      simp only [Option.some.injEq] at h
      subst h
      simp [pySetList, List.mem_dedup]
    | pairs l =>
      cases l with
      | nil =>
        rw [hl] at h
        simp only [Option.some.injEq] at h
        subst h
        simp [pySetList, List.mem_dedup]
      | cons y ys =>
        rw [hl] at h
        exact absurd h (by simp)

/-- up_age only ever touches the age_range field. -/
theorem up_age_other {p : SkinProfile} {e : EDict} {q : SkinProfile}
    (h : up_age p e = some q) :
    q.skin_type = p.skin_type ∧ q.concerns = p.concerns ∧
    q.current_routine = p.current_routine ∧ q.budget = p.budget ∧
    q.allergies = p.allergies := by
  unfold up_age at h
  split at h
  · split at h <;> (try split at h) <;>
      first
        | (simp only [Option.some.injEq] at h; subst h; simp)
        | simp at h
  · simp only [Option.some.injEq] at h
    subst h
    simp

/-- up_age either keeps age_range (no "age" key) or overwrites it with the
bucket of the parsed head of the "age" list. -/
theorem up_age_val {p : SkinProfile} {e : EDict} {q : SkinProfile}
    (h : up_age p e = some q) :
    (q.age_range = p.age_range ∧ e.lookup "age" = none) ∨
    (∃ a l n, e.lookup "age" = some (.strs (a :: l)) ∧ pyInt? a = some n ∧
      q.age_range = some (pyBucket n)) := by
  unfold up_age at h
  split at h
  · split at h
    · split at h
      · rename_i x1 a tail heq x2 n hn
        simp only [Option.some.injEq] at h
        exact .inr ⟨a, tail, n, heq, hn, by rw [← h]⟩
      · exact absurd h (by simp)
    · exact absurd h (by simp)
    · exact absurd h (by simp)
    · rename_i heq
      simp only [Option.some.injEq] at h
      exact .inl ⟨by rw [← h], heq⟩
  · rename_i hcond
    simp only [Option.some.injEq] at h
    refine .inl ⟨by rw [← h], ?_⟩
    rcases hl : e.lookup "age" with _ | v
    · rfl
    · exact absurd (by simp [hl] :
        ((e.lookup "age").isSome || (e.lookup "age_range").isSome) = true) hcond

/-- update_profile decomposes into its four sequential field updates. -/
theorem update_profile_decomp {p : SkinProfile} {e : EDict} {q : SkinProfile}
    (h : update_profile p e = some q) :
    ∃ pa pb pc, up_skin p e = some pa ∧ up_concerns pa e = some pb ∧
      up_products pb e = some pc ∧ up_age pc e = some q := by
  unfold update_profile at h
  rcases ha : up_skin p e with _ | pa
  · rw [ha] at h
    exact absurd h (by simp)
  · rw [ha] at h
    simp only [Option.some_bind] at h
    rcases hb : up_concerns pa e with _ | pb
    · rw [hb] at h
      exact absurd h (by simp)
    · rw [hb] at h
      simp only [Option.some_bind] at h
      rcases hc : up_products pb e with _ | pc
      · rw [hc] at h
        exact absurd h (by simp)
      · rw [hc] at h
        simp only [Option.some_bind] at h
        exact ⟨pa, pb, pc, rfl, hb, hc, h⟩

/-- _handle_general_input leaves the session alone unless the reset keyword
group fires, in which case it returns a session reset to GREETING with a
fresh profile and cleared context (messages and identifier untouched). -/
theorem handle_general_input_session (s : ChatSession) (m : String) :
    (handle_general_input s m).2 = s ∨
    (is_reset_message m = true ∧
     (handle_general_input s m).2 =
       { s with state := .greeting, profile := {}, context_name := none }) := by
  simp only [handle_general_input, is_reset_message]
  split_ifs <;> simp_all

/-- The per-state branches of _generate_response never change the session's
identifier, state, profile or message log (they only write the context name
or the stored recommendations). -/
theorem gr_core_frame {s : ChatSession} {m : String} {e : EDict}
    {r : String} {sg : List String} {pd : List Product} {s' : ChatSession}
    (h : gr_core s m e = some (r, sg, pd, s')) :
    s'.session_id = s.session_id ∧ s'.state = s.state ∧
    s'.profile = s.profile ∧ s'.messages = s.messages := by
  rcases s with ⟨sid, st, prof, msgs, ctx, recs⟩
  cases st <;> simp only [gr_core] at h <;> (repeat' split at h) <;> simp at h <;>
    obtain ⟨-, -, -, rfl⟩ := h <;> simp

/-- _generate_response preserves the session identifier and message log, and
either preserves state and profile or (only on a reset-phrase message routed
through the fallback) resets them to GREETING and a fresh profile. -/
theorem generate_response_session {s : ChatSession} {m : String} {e : EDict}
    {r : String} {sg : List String} {pd : List Product} {s' : ChatSession}
    (h : generate_response s m e = some (r, sg, pd, s')) :
    s'.session_id = s.session_id ∧ s'.messages = s.messages ∧
    ((s'.state = s.state ∧ s'.profile = s.profile) ∨
     (is_reset_message m = true ∧ s'.state = .greeting ∧ s'.profile = {})) := by
  unfold generate_response at h
  rcases hc : gr_core s m e with _ | q
  · rw [hc] at h
    exact absurd h (by simp)
  · obtain ⟨r1, sg1, pd1, s1⟩ := q
    rw [hc] at h
    obtain ⟨hid, hst, hpr, hms⟩ := gr_core_frame hc
    replace h : (if r1 == "" || r1.length < 10 then
        some ((handle_general_input s1 m).1, sg1, pd1, (handle_general_input s1 m).2)
      else some (r1, sg1, pd1, s1)) = some (r, sg, pd, s') := h
    split_ifs at h with hgate
    · simp only [Option.some.injEq, Prod.mk.injEq] at h
      obtain ⟨-, -, -, h4⟩ := h
      rcases handle_general_input_session s1 m with hh | ⟨hrk, hh⟩
      · rw [hh] at h4
        subst h4
        exact ⟨hid, hms, .inl ⟨hst, hpr⟩⟩
      · rw [hh] at h4
        subst h4
        exact ⟨hid, hms, .inr ⟨hrk, rfl, rfl⟩⟩
    · simp only [Option.some.injEq, Prod.mk.injEq] at h
      obtain ⟨-, -, -, h4⟩ := h
      subst h4
      exact ⟨hid, hms, .inl ⟨hst, hpr⟩⟩

/-- Anatomy of a successful process_message call: the profile accumulation,
the response generator's session effect, the state update, the message-log
append and the profile_complete computation, all in terms of the input
session. -/
theorem process_message_anatomy {s : ChatSession} {m : String} {r : ChatResponse}
    {s' : ChatSession} (h : process_message s m = some (r, s')) :
    ∃ (p1 : SkinProfile) (s3 : ChatSession),
      update_profile s.profile (extract_entities m) = some p1 ∧
      ((s3.state = s.state ∧ s3.profile = p1) ∨
       (is_reset_message m = true ∧ s3.state = .greeting ∧ s3.profile = {})) ∧
      s'.state = update_state s3.profile s3.state m ∧
      s'.profile = s3.profile ∧
      s'.session_id = s.session_id ∧
      s'.messages = s.messages ++
        [{ role := "user", content := m }, { role := "assistant", content := r.response }] ∧
      r.profile_complete = is_profile_complete s3.profile := by
  simp only [process_message] at h
  rcases hup : update_profile s.profile (extract_entities m) with _ | p1
  · rw [hup] at h
    exact absurd h (by simp)
  · rw [hup] at h
    simp only at h
    rcases hgr : generate_response
        { s with messages := s.messages ++ [{ role := "user", content := m }],
                 profile := p1 } m (extract_entities m) with _ | q
    · rw [hgr] at h
      exact absurd h (by simp)
    · obtain ⟨resp, sug, prods, s3⟩ := q
      rw [hgr] at h
      obtain ⟨hid, hms, hcase⟩ := generate_response_session hgr
      simp only [Option.some.injEq, Prod.mk.injEq] at h
      obtain ⟨hr, hs5⟩ := h
      refine ⟨p1, s3, rfl, ?_, ?_, ?_, ?_, ?_, ?_⟩
      · simpa using hcase
      · rw [← hs5]
      · rw [← hs5]
      · rw [← hs5]
        simpa using hid
      · rw [← hs5, ← hr]
        simp only at hms ⊢
        rw [hms]
        simp
      · rw [← hr]

/-- C1: the claim says a session in ANALYSIS always advances to FOLLOWUP
after process_message; in the code the chained conditionals of _update_state
have no ANALYSIS branch (even though its own state_transitions table maps
ANALYSIS to FOLLOWUP), so the session stays in ANALYSIS: evaluating
process_message at the failing input leaves the state at ANALYSIS, which is
not FOLLOWUP. -/
theorem C1_analysis_does_not_advance :
    (process_message c1_session "thanks").map (fun rs => rs.2.state) =
      some ConversationState.analysis ∧
    ConversationState.analysis ≠ ConversationState.followup := by
  exact ⟨by decide, by decide⟩

/-- C2 counterexample: for the empty profile (no treatment concern) the
morning step numbers are 1, 3, 4 — the moisturizer keeps its hard-coded
step 2 is never assigned, contradicting the claimed renumbering to
1, 2, 3. -/
theorem C2_counterexample :
    (generate_recommendations {}).morning_routine.map RoutineStep.step = [1, 3, 4] ∧
    (generate_recommendations {}).morning_routine.map RoutineStep.step ≠ [1, 2, 3] := by
  exact ⟨by decide, by decide⟩

/-- C2 amended: the morning step numbers are fixed per slot (cleanser 1,
optional treatment 2, moisturizer 3, sunscreen 4); they are 1, 2, 3, 4 when
an acne/aging/wrinkles/pigmentation concern adds the treatment and 1, 3, 4
— starting at 1 but with a gap — when it is omitted; no renumbering
happens. -/
theorem C2_amended_step_numbers (p : SkinProfile) :
    (generate_recommendations p).morning_routine.map RoutineStep.step =
      (if p.concerns.contains "acne" ||
          (p.concerns.contains "aging" || p.concerns.contains "wrinkles") ||
          p.concerns.contains "pigmentation" then [1, 2, 3, 4] else [1, 3, 4]) := by
  simp only [generate_recommendations]
  split_ifs <;> simp_all

/-- C3: the claim says a reset phrase from any state returns the session to
GREETING with an empty profile; in the code the reset handler of
_handle_general_input is only reachable when _generate_response produced a
response shorter than 10 characters, which never happens, so "start over"
sent to a session in ALLERGIES instead advances it to ANALYSIS and keeps its
profile. -/
theorem C3_reset_phrase_does_not_reset :
    (process_message c3_session "start over").map
      (fun rs => (rs.2.state, rs.2.profile, rs.2.session_id)) =
      some (ConversationState.analysis,
        ({ skin_type := some "dry", concerns := ["acne"] } : SkinProfile),
        "s-allergies") ∧
    ConversationState.analysis ≠ ConversationState.greeting := by
  exact ⟨by decide, by decide⟩

/-- C6 counterexample: for an utterance with no match in any category the
extractor returns the empty dict — the categories are absent, not present
with empty lists, so the lookup of "skin_type" yields nothing. -/
theorem C6_counterexample :
    extract_entities "hello" = [] ∧
    (extract_entities "hello").lookup "skin_type" = none := by
  exact ⟨by decide, by decide⟩

/-- C6 amended: a category appears in the extracted mapping only when it has
at least one match (no-match categories are absent rather than bound to an
empty list), and each of the three keyword categories lists every canonical
label at most once, however often its synonyms are repeated. -/
theorem C6_amended_entries (text : String) (kv : String × EVal)
    (h : kv ∈ extract_entities text) :
    kv.2.truthy = true ∧
    ((kv.1 = "skin_type" ∨ kv.1 = "concerns" ∨ kv.1 = "products") →
      ∃ l, kv.2 = EVal.strs l ∧ l.Nodup) := by
  simp only [extract_entities, List.mem_append] at h
  rcases h with ((((((h | h) | h) | h) | h) | h) | h) <;>
    obtain ⟨rfl, ht⟩ := mem_maybeEntry h
  · exact ⟨ht, fun _ => ⟨_, rfl, hitsOf_nodup (by decide) _⟩⟩
  · exact ⟨ht, fun _ => ⟨_, rfl, hitsOf_nodup (by decide) _⟩⟩
  · exact ⟨ht, fun _ => ⟨_, rfl, hitsOf_nodup (by decide) _⟩⟩
  · exact ⟨ht, by simp⟩
  · exact ⟨ht, by simp⟩
  · exact ⟨ht, by simp⟩
  · exact ⟨ht, by simp⟩

/-- C6 witness: a concrete utterance and entry satisfying the amended
statement's hypothesis. -/
theorem C6_amended_entries_witness :
    ("skin_type", EVal.strs ["oily"]) ∈ extract_entities "oily cleanser" ∧
    ((EVal.strs ["oily"]).truthy = true ∧
     (("skin_type" = "skin_type" ∨ "skin_type" = "concerns" ∨ "skin_type" = "products") →
       ∃ l, EVal.strs ["oily"] = EVal.strs l ∧ l.Nodup)) :=
  ⟨by decide, C6_amended_entries "oily cleanser" ("skin_type", EVal.strs ["oily"]) (by decide)⟩

/-- C8: an unknown session identifier makes both the inspection and the
export endpoint fail with 404; neither creates a session or changes the
store. -/
theorem C8_unknown_session_404 (store : SessionStore) (sid : String)
    (h : store.lookup sid = none) :
    (get_session store sid).1 = .error 404 ∧ (get_session store sid).2 = store ∧
    (export_routine store sid).1 = .error 404 ∧ (export_routine store sid).2 = store := by
  unfold get_session export_routine
  rw [h]
  simp

/-- C8 witness: a store holding one session and a different identifier. -/
theorem C8_unknown_session_404_witness :
    List.lookup "missing" ([("known", fresh_session "known")] : SessionStore) = none ∧
    ((get_session [("known", fresh_session "known")] "missing").1 = .error 404 ∧
     (get_session [("known", fresh_session "known")] "missing").2 =
       [("known", fresh_session "known")] ∧
     (export_routine [("known", fresh_session "known")] "missing").1 = .error 404 ∧
     (export_routine [("known", fresh_session "known")] "missing").2 =
       [("known", fresh_session "known")]) :=
  ⟨by decide, C8_unknown_session_404 [("known", fresh_session "known")] "missing" (by decide)⟩

/-- A state update landing at CONCERNS or beyond started at CONCERNS or
beyond, except for the SKIN_TYPE transition, which requires a truthy
skin_type or one of the five skin-type keywords. -/
theorem update_state_geq_two {p : SkinProfile} {st : ConversationState} {m : String}
    (h : 2 ≤ stateIdx (update_state p st m)) :
    2 ≤ stateIdx st ∨
    (st = .skin_type ∧
     (pyTruthy p.skin_type = true ∨
      (["oily", "dry", "combination", "normal", "sensitive"].any
        (fun w => infixOf w (lowerS m))) = true)) := by
  cases st
  case greeting =>
    simp only [update_state] at h
    split at h <;> simp [stateIdx] at h
  case skin_type =>
    simp only [update_state] at h
    split at h
    · rename_i hcond
      exact .inr ⟨rfl, by simpa using hcond⟩
    · simp [stateIdx] at h
  all_goals exact .inl (by decide)

/-- Every canonical skin-type label is a non-empty string. -/
theorem skin_label_ne_empty {v : String} (h : v ∈ skin_types_table.map Prod.fst) :
    v ≠ "" := by
  fin_cases h <;> decide

/-- Accumulating the entities of a message either leaves skin_type exactly as
it was (when the message mentions no skin-type synonym) or overwrites it with
a canonical label. -/
theorem update_profile_extract_skin {p : SkinProfile} {m : String} {p1 : SkinProfile}
    (h : update_profile p (extract_entities m) = some p1) :
    (p1.skin_type = p.skin_type ∧ hitsOf skin_types_table (lowerS m) = []) ∨
    (∃ v, p1.skin_type = some v ∧ v ∈ skin_types_table.map Prod.fst) := by
  obtain ⟨pa, pb, pc, ha, hb, hc, hd⟩ := update_profile_decomp h
  have hbo := (up_concerns_other hb).1
  have hco := (up_products_other hc).1
  have hdo := (up_age_other hd).1
  rcases up_skin_val ha with ⟨heq, hnone⟩ | ⟨x, l, hl, hx⟩
  · left
    refine ⟨by rw [hdo, hco, hbo, heq], ?_⟩
    rcases hhits : hitsOf skin_types_table (lowerS m) with _ | ⟨x0, l0⟩
    · rfl
    · exfalso
      have h2 := extract_skin_lookup m
      rw [hhits] at h2
      simp only [List.isEmpty_cons, Bool.false_eq_true, if_false] at h2
      exact hnone x0 l0 h2
  · right
    refine ⟨x, by rw [hdo, hco, hbo, hx], ?_⟩
    have h2 := extract_skin_lookup m
    rw [hl] at h2
    by_cases hemp : (hitsOf skin_types_table (lowerS m)).isEmpty = true
    · rw [if_pos hemp] at h2
      exact absurd h2 (by simp)
    · rw [if_neg hemp] at h2
      obtain h3 := Option.some.inj h2
      have h4 : x :: l = hitsOf skin_types_table (lowerS m) := by
        injection h3
      exact hitsOf_subset (h4 ▸ List.mem_cons_self x l)

/-- One application of update_profile, summarized field by field: set-union
growth for concerns and current_routine, untouched budget/allergies, and the
keep-or-overwrite alternatives for skin_type and age_range. -/
theorem update_profile_fields {p : SkinProfile} {e : EDict} {q : SkinProfile}
    (h : update_profile p e = some q) :
    (∀ x, x ∈ q.concerns ↔ (x ∈ p.concerns ∨ x ∈ eStrs e "concerns")) ∧
    (∀ x, x ∈ q.current_routine ↔ (x ∈ p.current_routine ∨ x ∈ eStrs e "products")) ∧
    q.budget = p.budget ∧ q.allergies = p.allergies ∧
    ((q.skin_type = p.skin_type ∧ ∀ x l, e.lookup "skin_type" ≠ some (.strs (x :: l))) ∨
     (∃ x l, e.lookup "skin_type" = some (.strs (x :: l)) ∧ q.skin_type = some x)) ∧
    ((q.age_range = p.age_range ∧ e.lookup "age" = none) ∨
     (∃ a l n, e.lookup "age" = some (.strs (a :: l)) ∧ pyInt? a = some n ∧
       q.age_range = some (pyBucket n))) := by
  obtain ⟨pa, pb, pc, ha, hb, hc, hd⟩ := update_profile_decomp h
  obtain ⟨hao1, hao2, hao3, hao4, hao5⟩ := up_skin_other ha
  obtain ⟨hbo1, hbo2, hbo3, hbo4, hbo5⟩ := up_concerns_other hb
  obtain ⟨hco1, hco2, hco3, hco4, hco5⟩ := up_products_other hc
  obtain ⟨hdo1, hdo2, hdo3, hdo4, hdo5⟩ := up_age_other hd
  refine ⟨?_, ?_, ?_, ?_, ?_, ?_⟩
  · intro x
    rw [hdo2, hco2, up_concerns_mem hb x, hao1]
  · intro x
    rw [hdo3, up_products_mem hc x, hbo2, hao2]
  · rw [hdo4, hco4, hbo4, hao4]
  · rw [hdo5, hco5, hbo5, hao5]
  · rcases up_skin_val ha with ⟨heq, hnone⟩ | ⟨x, l, hl, hx⟩
    · exact .inl ⟨by rw [hdo1, hco1, hbo1, heq], hnone⟩
    · exact .inr ⟨x, l, hl, by rw [hdo1, hco1, hbo1, hx]⟩
  · rcases up_age_val hd with ⟨heq, hnone⟩ | ⟨a, l, n, hl, hn, hx⟩
    · exact .inl ⟨by rw [heq, hco3, hbo3, hao3], hnone⟩
    · exact .inr ⟨a, l, n, hl, hn, hx⟩

/-- A non-reset message never decreases the state index across one
process_message call. -/
theorem process_message_state_mono {s : ChatSession} {m : String} {r : ChatResponse}
    {s' : ChatSession} (h : process_message s m = some (r, s'))
    (hnr : is_reset_message m = false) :
    stateIdx s.state ≤ stateIdx s'.state := by
  obtain ⟨p1, s3, -, hcase, hst, -, -, -, -⟩ := process_message_anatomy h
  rcases hcase with ⟨h1, -⟩ | ⟨hrk, -, -⟩
  · rw [hst, h1]
    exact update_state_mono s3.profile s.state m
  · rw [hnr] at hrk
    exact absurd hrk (by simp)

/-- A state trace always starts with the starting session's state. -/
theorem state_trace_head (s : ChatSession) (ms : List String) :
    (state_trace s ms).head? = some s.state := by
  cases ms <;> simp [state_trace]

/-- The skin-type invariant survives one process_message call: leaving
SKIN_TYPE requires either an already-truthy skin_type or a keyword that the
extractor maps to a canonical label, a reset lands back at GREETING, and
accumulation never clears the field. -/
theorem skin_inv_step {s : ChatSession} {m : String} {r : ChatResponse}
    {s' : ChatSession} (h : process_message s m = some (r, s')) (hi : SkinInv s) :
    SkinInv s' := by
  intro hge
  obtain ⟨p1, s3, hup, hcase, hst, hpr, -, -, -⟩ := process_message_anatomy h
  rw [hst] at hge
  rw [hpr]
  rcases hcase with ⟨h1, h2⟩ | ⟨-, h1, h2⟩
  · rw [h1, h2] at hge
    rw [h2]
    rcases update_state_geq_two hge with hge2 | ⟨-, hcond⟩
    · obtain ⟨v, hv, hvne⟩ := hi hge2
      rcases update_profile_extract_skin hup with ⟨heq, -⟩ | ⟨w, hw, hwmem⟩
      · exact ⟨v, by rw [heq, hv], hvne⟩
      · exact ⟨w, hw, skin_label_ne_empty hwmem⟩
    · rcases hcond with htr | hkw
      · rcases hx : p1.skin_type with _ | v
        · rw [hx] at htr
          exact absurd htr (by simp [pyTruthy])
        · rw [hx] at htr
          exact ⟨v, rfl, by simpa [pyTruthy, bne_iff_ne] using htr⟩
      · have hne := skin_hits_of_keyword hkw
        rcases update_profile_extract_skin hup with ⟨-, hempty⟩ | ⟨w, hw, hwmem⟩
        · exact absurd hempty hne
        · exact ⟨w, hw, skin_label_ne_empty hwmem⟩
  · rw [h1, h2] at hge
    have hle : stateIdx (update_state ({} : SkinProfile) .greeting m) ≤ 1 := by
      simp only [update_state]
      split <;> decide
    omega

/-- The skin-type invariant survives any run of process_message calls. -/
theorem skin_inv_run {s : ChatSession} {msgs : List String} {s' : ChatSession}
    (h : run_messages s msgs = some s') (hi : SkinInv s) : SkinInv s' := by
  induction msgs generalizing s with
  | nil =>
    simp only [run_messages, Option.some.injEq] at h
    rwa [← h]
  | cons m ms ih =>
    simp only [run_messages] at h
    rcases hpm : process_message s m with _ | rs
    · rw [hpm] at h
      exact absurd h (by simp)
    · rw [hpm] at h
      exact ih h (skin_inv_step hpm hi)

/-- C4: for any sequence of non-reset messages, the sequence of session
states observed across process_message calls is non-decreasing under the
fixed linear order GREETING to FOLLOWUP. -/
theorem C4_state_monotone (s : ChatSession) (msgs : List String)
    (h : ∀ m ∈ msgs, is_reset_message m = false) :
    List.Chain' (fun a b => stateIdx a ≤ stateIdx b) (state_trace s msgs) := by
  induction msgs generalizing s with
  | nil => simp [state_trace]
  | cons m ms ih =>
    simp only [state_trace]
    rcases hpm : process_message s m with _ | rs
    · simp
    · rw [List.chain'_cons']
      constructor
      · intro b hb
        rw [state_trace_head] at hb
        simp only [Option.mem_def, Option.some.injEq] at hb
        rw [← hb]
        exact process_message_state_mono hpm (h m (List.mem_cons_self m ms))
      · exact ih rs.2 (fun m1 hm1 => h m1 (List.mem_cons_of_mem _ hm1))

/-- C4 witness: a concrete session and reset-free message list. -/
theorem C4_state_monotone_witness :
    (∀ m ∈ ["hi", "oily skin"], is_reset_message m = false) ∧
    List.Chain' (fun a b => stateIdx a ≤ stateIdx b)
      (state_trace (fresh_session "w4") ["hi", "oily skin"]) :=
  ⟨by decide, C4_state_monotone (fresh_session "w4") ["hi", "oily skin"] (by decide)⟩

/-- C5: the profile_complete flag of the returned response is true exactly
when the stored session's skin_type is set and its concerns list is
non-empty, whatever the conversation state (for profiles whose skin_type is
not the degenerate empty string, which no chat path ever produces). -/
theorem C5_profile_complete_iff (s : ChatSession) (m : String) (r : ChatResponse)
    (s' : ChatSession) (h : process_message s m = some (r, s'))
    (hne : s'.profile.skin_type ≠ some "") :
    (r.profile_complete = true ↔
      (s'.profile.skin_type ≠ none ∧ s'.profile.concerns ≠ [])) := by
  obtain ⟨p1, s3, -, -, -, hpr, -, -, hpc⟩ := process_message_anatomy h
  rw [hpc, ← hpr]
  unfold is_profile_complete
  rcases hsk : s'.profile.skin_type with _ | v
  · simp [pyTruthy]
  · have hv : v ≠ "" := fun hh => hne (by rw [hsk, hh])
    simp [pyTruthy, hv]

/-- C5 witness: a complete profile parked in FOLLOWUP still reports
profile_complete. -/
theorem C5_profile_complete_iff_witness :
    process_message c5w_session "ok" = some (c5w_res.1, c5w_res.2) ∧
    c5w_res.2.profile.skin_type ≠ some "" ∧
    (c5w_res.1.profile_complete = true ↔
      (c5w_res.2.profile.skin_type ≠ none ∧ c5w_res.2.profile.concerns ≠ [])) :=
  ⟨by decide, by decide,
   C5_profile_complete_iff c5w_session "ok" c5w_res.1 c5w_res.2 (by decide) (by decide)⟩

/-- C7: applying the same entity mapping twice yields the same profile as
applying it once (exactly on the scalar fields, up to set membership on the
two set-valued fields); one application grows concerns and current_routine
by set union, overwrites skin_type with the first extracted label and
age_range with the bucketed age when those entities are present, and never
clears either field. -/
theorem C7_update_profile_algebra (p p₁ p₂ : SkinProfile) (e : EDict)
    (h1 : update_profile p e = some p₁) (h2 : update_profile p₁ e = some p₂) :
    (p₂.skin_type = p₁.skin_type ∧ p₂.age_range = p₁.age_range ∧
     p₂.budget = p₁.budget ∧ p₂.allergies = p₁.allergies ∧
     (∀ x, x ∈ p₂.concerns ↔ x ∈ p₁.concerns) ∧
     (∀ x, x ∈ p₂.current_routine ↔ x ∈ p₁.current_routine)) ∧
    (∀ x, x ∈ p₁.concerns ↔ (x ∈ p.concerns ∨ x ∈ eStrs e "concerns")) ∧
    (∀ x, x ∈ p₁.current_routine ↔ (x ∈ p.current_routine ∨ x ∈ eStrs e "products")) ∧
    (∀ x l, e.lookup "skin_type" = some (.strs (x :: l)) → p₁.skin_type = some x) ∧
    (∀ a l n, e.lookup "age" = some (.strs (a :: l)) → pyInt? a = some n →
      p₁.age_range = some (pyBucket n)) ∧
    (p₁.skin_type = none → p.skin_type = none) ∧
    (p₁.age_range = none → p.age_range = none) := by
  obtain ⟨hc1, hr1, hb1, hal1, hsk1, hag1⟩ := update_profile_fields h1
  obtain ⟨hc2, hr2, hb2, hal2, hsk2, hag2⟩ := update_profile_fields h2
  refine ⟨⟨?_, ?_, hb2, hal2, ?_, ?_⟩, hc1, hr1, ?_, ?_, ?_, ?_⟩
  · rcases hsk2 with ⟨heq, -⟩ | ⟨x, l, hl, hx⟩
    · exact heq
    · rcases hsk1 with ⟨-, hnone⟩ | ⟨x1, l1, hl1, hx1⟩
      · exact absurd hl (hnone x l)
      · rw [hx, hx1]
        have := hl1.symm.trans hl
        simp only [Option.some.injEq, EVal.strs.injEq, List.cons.injEq] at this
        rw [this.1]
  · rcases hag2 with ⟨heq, -⟩ | ⟨a, l, n, hl, hn, hx⟩
    · exact heq
    · rcases hag1 with ⟨-, hnone⟩ | ⟨a1, l1, n1, hl1, hn1, hx1⟩
      · rw [hnone] at hl
        exact absurd hl (by simp)
      · rw [hx, hx1]
        have hsame := hl1.symm.trans hl
        simp only [Option.some.injEq, EVal.strs.injEq, List.cons.injEq] at hsame
        rw [hsame.1] at hn1
        have heqn : n1 = n := Option.some.inj (hn1.symm.trans hn)
        rw [heqn]
  · intro x
    rw [hc2 x, hc1 x]
    tauto
  · intro x
    rw [hr2 x, hr1 x]
    tauto
  · intro x l hl
    rcases hsk1 with ⟨-, hnone⟩ | ⟨x1, l1, hl1, hx1⟩
    · exact absurd hl (hnone x l)
    · have := hl1.symm.trans hl
      simp only [Option.some.injEq, EVal.strs.injEq, List.cons.injEq] at this
      rw [hx1, this.1]
  · intro a l n hl hn
    rcases hag1 with ⟨-, hnone⟩ | ⟨a1, l1, n1, hl1, hn1, hx1⟩
    · rw [hnone] at hl
      exact absurd hl (by simp)
    · have hsame := hl1.symm.trans hl
      simp only [Option.some.injEq, EVal.strs.injEq, List.cons.injEq] at hsame
      rw [hsame.1] at hn1
      have heqn : n1 = n := Option.some.inj (hn1.symm.trans hn)
      rw [hx1, heqn]
  · intro hnone1
    rcases hsk1 with ⟨heq, -⟩ | ⟨x, l, -, hx⟩
    · rw [← heq, hnone1]
    · rw [hnone1] at hx
      exact absurd hx.symm (by simp)
  · intro hnone1
    rcases hag1 with ⟨heq, -⟩ | ⟨a, l, n, -, -, hx⟩
    · rw [← heq, hnone1]
    · rw [hnone1] at hx
      exact absurd hx.symm (by simp)

/-- C7 witness: a concrete profile and entity mapping applied twice. -/
theorem C7_update_profile_algebra_witness :
    update_profile c7_profile c7_dict = some c7_p1 ∧
    update_profile c7_p1 c7_dict = some c7_p2 ∧
    (c7_p2.skin_type = c7_p1.skin_type ∧
     (∀ x, x ∈ c7_p2.concerns ↔ x ∈ c7_p1.concerns) ∧
     (∀ x, x ∈ c7_p1.concerns ↔ (x ∈ c7_profile.concerns ∨ x ∈ eStrs c7_dict "concerns"))) := by
  have hmain := C7_update_profile_algebra c7_profile c7_p1 c7_p2 c7_dict (by decide) (by decide)
  exact ⟨by decide, by decide, hmain.1.1, hmain.1.2.2.2.2.1, hmain.2.1⟩

/-- C9: a session driven from a fresh state to ANALYSIS purely by
process_message calls has a non-null skin_type, so the
`profile.skin_type.capitalize()` call of _format_recommendations cannot
dereference None. -/
theorem C9_analysis_skin_type_set (sid : String) (msgs : List String) (s' : ChatSession)
    (h : run_messages (fresh_session sid) msgs = some s')
    (ha : s'.state = ConversationState.analysis) :
    s'.profile.skin_type ≠ none := by
  have hinv : SkinInv (fresh_session sid) := by
    intro hge
    simp [fresh_session, stateIdx] at hge
  obtain ⟨v, hv, -⟩ := skin_inv_run h hinv (by rw [ha]; decide)
  rw [hv]
  simp

/-- C9 witness: a concrete eight-message run that reaches ANALYSIS. -/
theorem C9_analysis_skin_type_set_witness :
    run_messages (fresh_session "w9") c9_msgs = some c9_res ∧
    c9_res.state = ConversationState.analysis ∧
    c9_res.profile.skin_type ≠ none :=
  ⟨by decide, by decide,
   C9_analysis_skin_type_set "w9" c9_msgs c9_res (by decide) (by decide)⟩

/-- C10: each process_message call appends exactly the user message and then
the assistant response to the session's log, leaving earlier entries and the
session identifier untouched. -/
theorem C10_message_log_append (s : ChatSession) (m : String) (r : ChatResponse)
    (s' : ChatSession) (h : process_message s m = some (r, s')) :
    s'.messages = s.messages ++
      [{ role := "user", content := m }, { role := "assistant", content := r.response }] ∧
    s'.session_id = s.session_id := by
  obtain ⟨p1, s3, -, -, -, -, hid, hmsg, -⟩ := process_message_anatomy h
  exact ⟨hmsg, hid⟩

/-- C10 witness: a concrete call on a fresh session. -/
theorem C10_message_log_append_witness :
    process_message (fresh_session "w10") "hi" = some (c10_res.1, c10_res.2) ∧
    (c10_res.2.messages = (fresh_session "w10").messages ++
      [{ role := "user", content := "hi" },
       { role := "assistant", content := c10_res.1.response }] ∧
     c10_res.2.session_id = (fresh_session "w10").session_id) :=
  ⟨by decide, C10_message_log_append (fresh_session "w10") "hi" c10_res.1 c10_res.2 (by decide)⟩

end ApsaraChatbot
